import Mathlib

/-!
Verification of the `wolfram-library-link` marshalling layer.

This file shallowly embeds the callback-channel functions of
`src/wolfram-library-link/src/lib.rs` (`evaluate`, `try_evaluate`,
`process_wstp_link`, `with_link`, `aborted`), the argument-decoding closure
generated by `gen_arg_mode_pattern` in
`src/wolfram-library-link/wolfram-library-function-macro/src/gen_wstp.rs`,
and — modelled from the specification where the repository code is not under
src/ — the panic-catching entry-point wrappers of `macro_utils` and the
`assert_main_thread` check of `library_data`.

Rust panics are modelled as an explicit `Outcome.panicked` value: a Rust
function that may unwind is embedded as a total Lean function into `Outcome`.
The WSTP link is embedded as an oracle record (`HostLink`) fixing the result
of each link operation performed during one round-trip, together with an
explicit trace of the expressions written onto the link.
-/

namespace WolframLibraryLink

/-- Wolfram Language expression trees, as used by `lib.rs` through the
`wl_expr_core` crate: an atom (symbol, string or machine integer — the only
atom kinds these claims touch) or a head applied to a list of contents
(`ExprKind::Normal`). -/
inductive Expr : Type
  | symbol (name : String)
  | str (val : String)
  | integer (val : Int)
  | normal (head : Expr) (contents : List Expr)

/-- Outcome of running a Rust computation that may unwind: normal return,
an `Err` value, or a panic. -/
inductive Outcome (α : Type) : Type
  | ok (value : α)
  | error (msg : String)
  | panicked (msg : String)
deriving DecidableEq

/-- True exactly on the `error` constructor. -/
def Outcome.isError {α : Type} : Outcome α → Bool
  | .error _ => true
  | _ => false

/-- True exactly on the `panicked` constructor. -/
def Outcome.isPanicked {α : Type} : Outcome α → Bool
  | .panicked _ => true
  | _ => false

/-- True exactly on the `ok` constructor. -/
def Outcome.isOk {α : Type} : Outcome α → Bool
  | .ok _ => true
  | _ => false

/-- An expression is an atom when it is not an `ExprKind::Normal`. -/
def Expr.isAtom : Expr → Bool
  | .normal _ _ => false
  | _ => true

mutual

/-- Rendering of an expression, standing in for the `Display` implementation
of the `wl_expr_core` crate (not under src/); it is used only inside error
and panic message strings, whose exact text no claim depends on. -/
def Expr.display : Expr → String
  | .symbol name => name
  | .str val => "\x22" ++ val ++ "\x22"
  | .integer val => toString val
  | .normal head contents =>
      head.display ++ "[" ++ Expr.displayList contents ++ "]"

/-- Comma-separated rendering of a list of expressions. -/
def Expr.displayList : List Expr → String
  | [] => ""
  | [e] => e.display
  | e :: rest => e.display ++ ", " ++ Expr.displayList rest

end

/-- Oracle for the one shared WSTP link during a single round-trip: the result
of the `put_expr` call for the request, the return code of the
`processWSLINK` RTL call, the value of `link.error_message()`, and the result
of the `get_expr` call for the reply. -/
structure HostLink : Type where
  putExprResult : Except String Unit
  processReturnCode : Int
  errorMessage : Option String
  getExprResult : Except String Expr

/-- Modelled from the spec: `library_data::assert_main_thread` (the
`library_data` module is not under src/). Per the spec, callers of the
callback channel "must already be on the designated dispatch thread (enforced
by an assertion, not a runtime recoverable check)": off the main thread the
assertion panics, on the main thread it is a no-op. -/
def assert_main_thread (onMainThread : Bool) : Outcome Unit :=
  if onMainThread then .ok () else .panicked "attempted to access the WSTP link from a thread other than the main thread"

/-- Translation of `process_wstp_link` (lib.rs:214-231): assert the main
thread, call `processWSLINK`, and on a zero return code produce an error
carrying the link error message, or the fixed fallback text when the link
supplies none. -/
def process_wstp_link (onMainThread : Bool) (link : HostLink) : Outcome Unit :=
  match assert_main_thread onMainThread with
  | .panicked msg => .panicked msg
  | .error msg => .error msg
  | .ok () =>
      if link.processReturnCode = 0 then
        .error (link.errorMessage.getD "unknown error occurred on WSTP Link")
      else
        .ok ()

/-- Translation of `with_link` (lib.rs:234-253): assert the main thread,
acquire the process-wide lock (always available in this single round-trip
embedding; the concurrent behaviour of the lock is modelled separately by
`ChanState`/`ChanStep` below), obtain the `getWSLINK()` link and run `f` on
it. The second component of the result is the trace of expressions written
onto the link. -/
def with_link {α : Type} (onMainThread : Bool) (link : HostLink)
    (f : HostLink → Outcome α × List Expr) : Outcome α × List Expr :=
  match assert_main_thread onMainThread with
  | .panicked msg => (.panicked msg, [])
  | .error msg => (.error msg, [])
  | .ok () => f link

/-- The request envelope sent by `try_evaluate`:
`EvaluatePacket[expr]`, built with head symbol `System`EvaluatePacket`
and exactly one argument. -/
def evaluatePacket (expr : Expr) : Expr :=
  .normal (.symbol "System`EvaluatePacket") [expr]

/-- The closure passed by `try_evaluate` to `with_link` (lib.rs:158-189):
put `EvaluatePacket[expr]` on the link, process the link, read the reply,
and return the first element of the reply when it is a compound expression
(in release builds the `debug_assert!` checks of the `ReturnPacket` head and
of the single-element arity are compiled out; indexing `contents[0]` of an
empty contents list panics), or an error when the reply is an atom. -/
def try_evaluate_body (onMainThread : Bool) (link : HostLink) (expr : Expr) :
    Outcome Expr × List Expr :=
  match link.putExprResult with
  | .error e => (.error e, [])
  | .ok () =>
      let sent := [evaluatePacket expr]
      match process_wstp_link onMainThread link with
      | .panicked msg => (.panicked msg, sent)
      | .error msg => (.error msg, sent)
      | .ok () =>
          match link.getExprResult with
          | .error e => (.error e, sent)
          | .ok return_packet =>
              match return_packet with
              | .normal _head contents =>
                  match contents with
                  | [] => (.panicked "index out of bounds: the len is 0 but the index is 0", sent)
                  | c :: _ => (.ok c, sent)
              | _ =>
                  (.error ("try_evaluate(): returned expression was not ReturnPacket: "
                      ++ return_packet.display), sent)

/-- Translation of `try_evaluate` (lib.rs:157-190). -/
def try_evaluate (onMainThread : Bool) (link : HostLink) (expr : Expr) :
    Outcome Expr × List Expr :=
  with_link onMainThread link (fun l => try_evaluate_body onMainThread l expr)

/-- Translation of `evaluate` (lib.rs:145-153): return the `Ok` payload of
`try_evaluate`, and collapse an `Err` into a panic carrying the error
message and the displayed expression. -/
def evaluate (onMainThread : Bool) (link : HostLink) (expr : Expr) :
    Outcome Expr × List Expr :=
  match try_evaluate onMainThread link expr with
  | (.ok returned, sent) => (.ok returned, sent)
  | (.error msg, sent) =>
      (.panicked ("evaluate(): evaluation of expression failed: " ++ msg
          ++ ": \n\texpression: " ++ expr.display), sent)
  | (.panicked msg, sent) => (.panicked msg, sent)

/-- Translation of `aborted` (lib.rs:206-212): one fresh call to the RTL
`AbortQ()` (an external host read, passed here as the value that call
returns) compared against 1. -/
def aborted (abortQResult : Int) : Bool :=
  abortQResult == 1

/-- A sequence of `aborted()` calls: `flag t` is the value the external
`AbortQ()` read returns at the t-th call; each call performs its own fresh
read. -/
def abortedAt (flag : Nat → Int) (t : Nat) : Bool :=
  aborted (flag t)

/-- A transport failure (the request write, the link-processing step, or the
reply read fails) or an atomic reply during one `try_evaluate` round-trip.
These are exactly the failures lib.rs:157-190 turns into an `Err`. Note this
is strictly narrower than the protocol failures of the spec
(`replyEnvelopeMismatch` below): a compound reply with a non-`ReturnPacket`
head is a protocol failure in the words of the spec, but is deliberately
excluded here because the code does not reject it. -/
def transportOrAtomicReplyFailure (link : HostLink) : Prop :=
  (∃ m, link.putExprResult = .error m) ∨
  link.processReturnCode = 0 ∨
  (∃ m, link.getExprResult = .error m) ∨
  (∃ a, link.getExprResult = .ok a ∧ a.isAtom = true)

/-- Protocol failure in the words of the spec (sections 4.2 and 7): the reply
envelope read off the channel has an unexpected shape or head — it is not a
unary `ReturnPacket` envelope. This definition follows the words of the spec,
for comparison with what the code checks; it is true of atomic replies, of
compound replies with a non-`ReturnPacket` head, and of `ReturnPacket`
envelopes of the wrong arity. -/
def replyEnvelopeMismatch : Expr → Bool
  | .normal (.symbol "System`ReturnPacket") [_] => false
  | _ => true

/-- True exactly when the expression is a compound with head the
`System`Failure` symbol, i.e. a Failure-tagged structured value. -/
def Expr.isFailure : Expr → Bool
  | .normal (.symbol "System`Failure") _ => true
  | _ => false

/-- A `Rule[lhs, rhs]` expression with a string left-hand side. -/
def ruleExpr (lhs : String) (rhs : Expr) : Expr :=
  .normal (.symbol "System`Rule") [.str lhs, rhs]

/-- Outcome of running the wrapped user code inside a generated entry point:
either a normal return value, or a panic carrying the captured message and
source location. -/
inductive UserOutcome (α : Type) : Type
  | normal (value : α)
  | panicked (msg : String) (location : String)

/-- Modelled from the spec: the `LIBRARY_FUNCTION_ERROR` status code of the
`wolfram-library-link-sys` crate (not under src/), the fixed nonzero error
status a fixed-signature entry point returns when the wrapped call panicked. -/
def LIBRARY_FUNCTION_ERROR : Nat := 6

/-- Modelled from the spec: the Failure-like structured value the panic
translator constructs — kind-tagged, with the panic message, the source
location, and, when the diagnostic toggle is set, a symbolic backtrace. -/
def panic_failure_expr (msg location : String) (backtrace : Option String) : Expr :=
  .normal (.symbol "System`Failure")
    [ .str "RustPanic",
      .normal (.symbol "System`Association")
        ([ruleExpr "MessageTemplate" (.str msg), ruleExpr "Location" (.str location)]
          ++ (match backtrace with
              | some b => [ruleExpr "Backtrace" (.str b)]
              | none => [])) ]

/-- Modelled from the spec: `macro_utils::call_native_wolfram_library_function`
(the `macro_utils` module is not under src/; the `export!` macro at
lib.rs:548-598 calls it). It supervises the wrapped user call, and returns the
status code for the host together with the value stored into the raw result
slot: success status with the result on normal completion, and the fixed
nonzero error status with no result when the call panicked — the panic is
consumed, never propagated to the host. -/
def call_native_wolfram_library_function {α : Type} (outcome : UserOutcome α) :
    Nat × Option α :=
  match outcome with
  | .normal v => (0, some v)
  | .panicked _ _ => (LIBRARY_FUNCTION_ERROR, none)

/-- Modelled from the spec: `macro_utils::call_wstp_wolfram_library_function`
(the `macro_utils` module is not under src/; the `export_wstp!` macro at
lib.rs:725-772 calls it). It supervises the wrapped user call and returns the
status code together with the reply expression written back on the link: the
user result on normal completion, and a Failure-tagged structured value
(with the backtrace field exactly when the cached diagnostic toggle is set)
when the call panicked — the panic is consumed, never propagated to the
host. -/
def call_wstp_wolfram_library_function (outcome : UserOutcome Expr)
    (backtraceEnabled : Bool) (backtrace : String) : Nat × Expr :=
  match outcome with
  | .normal e => (0, e)
  | .panicked msg location =>
      (0, panic_failure_expr msg location
        (if backtraceEnabled then some backtrace else none))

/-- The `Failure` expression built by the closure generated by
`gen_arg_mode_pattern` (gen_wstp.rs:60-65) when pattern decoding fails:
`Failure["ArgumentShape", <|"Message" -> msg|>]` (the `Expr!` macro of the
`wl_expr` crate resolves the bare heads into the `System` context). -/
def argumentShapeFailure (msg : String) : Expr :=
  .normal (.symbol "System`Failure")
    [ .str "ArgumentShape",
      .normal (.symbol "System`Association") [ruleExpr "Message" (.str msg)] ]

/-- Translation of the argument-handling closure generated by
`gen_arg_mode_pattern` (gen_wstp.rs:48-68) and passed to
`call_wstp_expr_wolfram_library_function`: decode `argument_expr` through the
derived `FromExpr` implementation (`from_expr`, whose decoded value stands
for the generated struct, its fields in declared parameter order), and either
call the user function on the decoded fields or return the ArgumentShape
Failure carrying the decode error message. -/
def gen_arg_mode_pattern_closure {Args : Type} (from_expr : Expr → Except String Args)
    (function_name : Args → Expr) (argument_expr : Expr) : Expr :=
  match from_expr argument_expr with
  | .ok args => function_name args
  | .error err => argumentShapeFailure err

/-- The same generated closure, instrumented with the list of invocations of
the wrapped user function (each entry is the decoded argument record of one
invocation, in call order). -/
def gen_arg_mode_pattern_closure_traced {Args : Type}
    (from_expr : Expr → Except String Args) (function_name : Args → Expr)
    (argument_expr : Expr) : Expr × List Args :=
  match from_expr argument_expr with
  | .ok args => (function_name args, [args])
  | .error err => (argumentShapeFailure err, [])

/-!
Concurrency model for the callback channel (claim about `with_link`,
lib.rs:234-253). Each thread that performs one channel round-trip through
`with_link`/`try_evaluate` goes through the phases: acquire the process-wide
`LOCK`, write the request (`put_expr`), read and decode the reply
(`get_expr`), and release the lock when the `with_link` scope ends. The step
relation `ChanStep` allows any interleaving of such threads subject only to
the mutex semantics of `std::sync::Mutex`: a thread can acquire only when no
thread holds the lock, and the link operations of a round-trip require
holding the lock, exactly as in the source where the link is only reachable
inside the closure run by `with_link`.
-/

/-- Phase of the round-trip of one thread through `with_link`. -/
inductive Phase : Type
  | idle
  | locked
  | sent
  | received
  | done
deriving DecidableEq

/-- A thread is inside the round-trip critical section: it has acquired the
lock and not yet released it. -/
def Phase.active : Phase → Bool
  | .locked => true
  | .sent => true
  | .received => true
  | .idle => false
  | .done => false

/-- Global state of `n` threads sharing the callback channel: the current
holder of the process-wide lock, the phase of each thread, and the order in which
requests were written to and responses read from the link. -/
structure ChanState (n : Nat) : Type where
  owner : Option (Fin n)
  phase : Fin n → Phase
  requests : List (Fin n)
  responses : List (Fin n)

/-- Initial state: lock free, every thread idle, nothing on the link. -/
def ChanState.init (n : Nat) : ChanState n :=
  { owner := none, phase := fun _ => .idle, requests := [], responses := [] }

/-- One interleaving step of the concurrent channel users.  `acquire` is the
`LOCK.lock()` call at the top of `with_link` (it blocks while another thread
holds the lock); `put` writes the request; `get` reads and decodes the reply;
`release` is the end of the `with_link` scope, where the guard is dropped.
`put`, `get` and `release` require the lock to be held by the stepping
thread, because the link reference only exists inside the locked scope. -/
inductive ChanStep {n : Nat} : ChanState n → ChanState n → Prop
  | acquire (s : ChanState n) (t : Fin n)
      (hfree : s.owner = none) (hph : s.phase t = .idle) :
      ChanStep s { s with owner := some t, phase := Function.update s.phase t .locked }
  | put (s : ChanState n) (t : Fin n)
      (hown : s.owner = some t) (hph : s.phase t = .locked) :
      ChanStep s { s with phase := Function.update s.phase t .sent,
                          requests := s.requests ++ [t] }
  | get (s : ChanState n) (t : Fin n)
      (hown : s.owner = some t) (hph : s.phase t = .sent) :
      ChanStep s { s with phase := Function.update s.phase t .received,
                          responses := s.responses ++ [t] }
  | release (s : ChanState n) (t : Fin n)
      (hown : s.owner = some t) (hph : s.phase t = .received) :
      ChanStep s { s with owner := none, phase := Function.update s.phase t .done }

/-- The request, if any, whose response has not yet been read: nonempty
exactly when the lock holder has written its request and not yet read the
reply. -/
def pendingReply {n : Nat} (s : ChanState n) : List (Fin n) :=
  match s.owner with
  | none => []
  | some t => if s.phase t = .sent then [t] else []

/-- Channel invariant: every thread inside its round-trip critical section is
the lock holder (so at most one round-trip is in progress), and the request
order equals the response order followed by the one pending request. -/
def ChanInv {n : Nat} (s : ChanState n) : Prop :=
  (∀ t : Fin n, (s.phase t).active = true → s.owner = some t) ∧
  s.requests = s.responses ++ pendingReply s

lemma chanInv_init (n : Nat) : ChanInv (ChanState.init n) := by
  constructor
  · intro t ht
    simp [ChanState.init, Phase.active] at ht
  · simp [ChanState.init, pendingReply]

lemma chanInv_step {n : Nat} {s s2 : ChanState n} (hs : ChanInv s)
    (hstep : ChanStep s s2) : ChanInv s2 := by
  obtain ⟨hact, hreq⟩ := hs
  cases hstep with
  | acquire t hfree hph =>
    constructor
    · intro u hu
      dsimp only at hu ⊢
      by_cases hut : u = t
      · simp [hut]
      · rw [Function.update_noteq hut] at hu
        rw [hact u hu] at hfree
        cases hfree
    · have hold : pendingReply s = [] := by
        simp [pendingReply, hfree]
      have hnew : pendingReply
          { s with owner := some t,
                   phase := Function.update s.phase t Phase.locked } = [] := by
        simp [pendingReply]
      dsimp only
      rw [hnew, hreq, hold]
  | put t hown hph =>
    constructor
    · intro u hu
      dsimp only at hu ⊢
      by_cases hut : u = t
      · rw [hut]
        exact hown
      · rw [Function.update_noteq hut] at hu
        exact hact u hu
    · have hold : pendingReply s = [] := by
        simp [pendingReply, hown, hph]
      have hnew : pendingReply
          { s with phase := Function.update s.phase t Phase.sent,
                   requests := s.requests ++ [t] } = [t] := by
        simp [pendingReply, hown]
      dsimp only
      rw [hnew, hreq, hold]
      simp
  | get t hown hph =>
    constructor
    · intro u hu
      dsimp only at hu ⊢
      by_cases hut : u = t
      · rw [hut]
        exact hown
      · rw [Function.update_noteq hut] at hu
        exact hact u hu
    · have hold : pendingReply s = [t] := by
        simp [pendingReply, hown, hph]
      have hnew : pendingReply
          { s with phase := Function.update s.phase t Phase.received,
                   responses := s.responses ++ [t] } = [] := by
        simp [pendingReply, hown]
      dsimp only
      rw [hnew, hreq, hold]
      simp
  | release t hown hph =>
    constructor
    · intro u hu
      dsimp only at hu ⊢
      by_cases hut : u = t
      · subst hut
        rw [Function.update_same] at hu
        simp [Phase.active] at hu
      · rw [Function.update_noteq hut] at hu
        rw [hact u hu] at hown
        injection hown with h
        exact absurd h hut
    · have hold : pendingReply s = [] := by
        simp [pendingReply, hown, hph]
      have hnew : pendingReply
          { s with owner := none,
                   phase := Function.update s.phase t Phase.done } = [] := by
        simp [pendingReply]
      dsimp only
      rw [hnew, hreq, hold]

lemma chanInv_reachable {n : Nat} {s : ChanState n}
    (h : Relation.ReflTransGen ChanStep (ChanState.init n) s) : ChanInv s := by
  induction h with
  | refl => exact chanInv_init n
  | tail _ hstep ih => exact chanInv_step ih hstep

/-- C1: for every exported wrapped function, a panic inside the wrapped user
code always results in the entry point returning a value to the host — the
fixed nonzero `LIBRARY_FUNCTION_ERROR` status (with no result stored) for
fixed-signature functions, and a Failure-tagged structured reply for WSTP
channel-mode functions; for every outcome, panicking or not, the entry point
returns a status/result pair, so no unwind crosses the boundary. -/
theorem exported_wrapper_contains_panics (α : Type) (msg location : String)
    (backtraceEnabled : Bool) (backtrace : String) (outcome : UserOutcome α)
    (eoutcome : UserOutcome Expr) :
    @call_native_wolfram_library_function α (UserOutcome.panicked msg location)
        = (LIBRARY_FUNCTION_ERROR, none) ∧
    LIBRARY_FUNCTION_ERROR ≠ 0 ∧
    Expr.isFailure
        (call_wstp_wolfram_library_function (.panicked msg location)
          backtraceEnabled backtrace).2 = true ∧
    (∃ status res, call_native_wolfram_library_function outcome = (status, res)) ∧
    (∃ status reply,
        call_wstp_wolfram_library_function eoutcome backtraceEnabled backtrace
          = (status, reply)) := by
  refine ⟨rfl, by decide, ?_, ⟨_, _, rfl⟩, ⟨_, _, rfl⟩⟩
  simp [call_wstp_wolfram_library_function, panic_failure_expr, Expr.isFailure]

/-- C2: when the host evaluation succeeds (the request write succeeds, the
link-processing step succeeds, and the reply is `ReturnPacket[r]`),
`try_evaluate` writes exactly one request expression onto the channel — the
unary envelope `EvaluatePacket[expr]` — and returns the reply payload `r`
stripped of the `ReturnPacket` envelope head; `evaluate` returns the same. -/
theorem try_evaluate_success (link : HostLink) (expr r : Expr)
    (hput : link.putExprResult = .ok ())
    (hproc : link.processReturnCode ≠ 0)
    (hget : link.getExprResult
      = .ok (.normal (.symbol "System`ReturnPacket") [r])) :
    try_evaluate true link expr = (.ok r, [evaluatePacket expr]) ∧
    evaluate true link expr = (.ok r, [evaluatePacket expr]) := by
  have h1 : try_evaluate true link expr = (.ok r, [evaluatePacket expr]) := by
    simp [try_evaluate, with_link, try_evaluate_body, assert_main_thread,
          process_wstp_link, hput, hproc, hget]
  exact ⟨h1, by simp [evaluate, h1]⟩

/-- Witness for C2 at a concrete link whose reply is `ReturnPacket[25]`. -/
theorem try_evaluate_success_witness :
    try_evaluate true
        { putExprResult := .ok (), processReturnCode := 1, errorMessage := none,
          getExprResult := .ok (.normal (.symbol "System`ReturnPacket") [.integer 25]) }
        (.integer 5)
      = (.ok (.integer 25), [evaluatePacket (.integer 5)]) ∧
    evaluate true
        { putExprResult := .ok (), processReturnCode := 1, errorMessage := none,
          getExprResult := .ok (.normal (.symbol "System`ReturnPacket") [.integer 25]) }
        (.integer 5)
      = (.ok (.integer 25), [evaluatePacket (.integer 5)]) :=
  try_evaluate_success _ _ _ rfl (by decide) rfl

/-- C3 counterexample: the reply `Global`Foo[42]` does not have the expected
`ReturnPacket` head, yet `try_evaluate` does not return an `Err` — it returns
`Ok 42`, the first element of the reply (in release builds only a
`debug_assert!` inspects the head). -/
theorem try_evaluate_wrong_head_not_rejected :
    (try_evaluate true
        { putExprResult := .ok (), processReturnCode := 1, errorMessage := none,
          getExprResult := .ok (.normal (.symbol "Global`Foo") [.integer 42]) }
        (.integer 0)).1 = .ok (.integer 42) ∧
    Outcome.isError (try_evaluate true
        { putExprResult := .ok (), processReturnCode := 1, errorMessage := none,
          getExprResult := .ok (.normal (.symbol "Global`Foo") [.integer 42]) }
        (.integer 0)).1 = false :=
  ⟨rfl, rfl⟩

/-- C3 amended: `try_evaluate` returns a protocol `Err` (and no value) exactly
when the reply read from the channel is an atomic expression; a compound
reply is not checked against the `ReturnPacket` head in release builds — only
a `debug_assert!` inspects it — and its first element is returned as the
value (a compound reply with no elements panics on the `contents[0]`
index). -/
theorem try_evaluate_reply_envelope (link : HostLink) (expr reply : Expr)
    (hput : link.putExprResult = .ok ())
    (hproc : link.processReturnCode ≠ 0)
    (hget : link.getExprResult = .ok reply) :
    (reply.isAtom = true → (try_evaluate true link expr).1 =
        .error ("try_evaluate(): returned expression was not ReturnPacket: "
          ++ reply.display)) ∧
    (∀ hd c cs, reply = .normal hd (c :: cs) →
        (try_evaluate true link expr).1 = .ok c) ∧
    (∀ hd, reply = .normal hd [] →
        Outcome.isPanicked (try_evaluate true link expr).1 = true) := by
  refine ⟨?_, ?_, ?_⟩
  · intro hatom
    cases reply with
    | normal hd contents => simp [Expr.isAtom] at hatom
    | symbol name =>
        simp [try_evaluate, with_link, try_evaluate_body, assert_main_thread,
              process_wstp_link, hput, hproc, hget]
    | str val =>
        simp [try_evaluate, with_link, try_evaluate_body, assert_main_thread,
              process_wstp_link, hput, hproc, hget]
    | integer val =>
        simp [try_evaluate, with_link, try_evaluate_body, assert_main_thread,
              process_wstp_link, hput, hproc, hget]
  · intro hd c cs hreply
    subst hreply
    simp [try_evaluate, with_link, try_evaluate_body, assert_main_thread,
          process_wstp_link, hput, hproc, hget]
  · intro hd hreply
    subst hreply
    simp [try_evaluate, with_link, try_evaluate_body, assert_main_thread,
          process_wstp_link, hput, hproc, hget, Outcome.isPanicked]

/-- Witness for the amended C3: an atomic reply yields the protocol error. -/
theorem try_evaluate_reply_envelope_witness :
    (try_evaluate true
        { putExprResult := .ok (), processReturnCode := 1, errorMessage := none,
          getExprResult := .ok (.symbol "System`Null") }
        (.integer 0)).1 =
      .error ("try_evaluate(): returned expression was not ReturnPacket: "
        ++ (Expr.symbol "System`Null").display) :=
  (try_evaluate_reply_envelope _ _ _ rfl (by decide) rfl).1 rfl

/-- C4 counterexample: the reply `Global`Foo[]` is a protocol failure in the
words of the spec — its envelope head is not the expected `ReturnPacket` tag
— yet `try_evaluate` does not return an `Err` value: it unwinds, panicking
on the `contents[0]` index of the empty compound reply. -/
theorem try_evaluate_protocol_failure_unwinds :
    replyEnvelopeMismatch (.normal (.symbol "Global`Foo") []) = true ∧
    Outcome.isPanicked (try_evaluate true
        { putExprResult := .ok (), processReturnCode := 1, errorMessage := none,
          getExprResult := .ok (.normal (.symbol "Global`Foo") []) }
        (.integer 0)).1 = true ∧
    Outcome.isError (try_evaluate true
        { putExprResult := .ok (), processReturnCode := 1, errorMessage := none,
          getExprResult := .ok (.normal (.symbol "Global`Foo") []) }
        (.integer 0)).1 = false :=
  ⟨rfl, rfl, rfl⟩

/-- C4 amended: `try_evaluate` yields an `Err` value — it does not unwind —
on every transport failure and on the atomic-reply protocol failure; the
remaining protocol failures of the spec are not rejected by the code: a
compound reply with any head and at least one element yields `Ok` of its
first element, and a compound reply with no elements unwinds. `evaluate`
passes through the `Ok` payload of `try_evaluate` and collapses any `Err`
of `try_evaluate` into a panic. -/
theorem try_evaluate_result_discipline (link : HostLink) (expr : Expr) :
    (transportOrAtomicReplyFailure link →
        Outcome.isError (try_evaluate true link expr).1 = true) ∧
    (∀ hd c cs, link.putExprResult = .ok () → link.processReturnCode ≠ 0 →
        link.getExprResult = .ok (.normal hd (c :: cs)) →
        (try_evaluate true link expr).1 = .ok c) ∧
    (∀ hd, link.putExprResult = .ok () → link.processReturnCode ≠ 0 →
        link.getExprResult = .ok (.normal hd []) →
        Outcome.isPanicked (try_evaluate true link expr).1 = true) ∧
    (∀ r, (try_evaluate true link expr).1 = .ok r →
        (evaluate true link expr).1 = .ok r) ∧
    (∀ m, (try_evaluate true link expr).1 = .error m →
        Outcome.isPanicked (evaluate true link expr).1 = true) := by
  refine ⟨?_, ?_, ?_, ?_, ?_⟩
  · intro hfail
    rcases hput : link.putExprResult with m | u
    · simp [try_evaluate, with_link, try_evaluate_body, assert_main_thread,
            hput, Outcome.isError]
    · cases u
      by_cases hcode : link.processReturnCode = 0
      · simp [try_evaluate, with_link, try_evaluate_body, assert_main_thread,
              process_wstp_link, hput, hcode, Outcome.isError]
      · rcases hget : link.getExprResult with m | reply
        · simp [try_evaluate, with_link, try_evaluate_body, assert_main_thread,
                process_wstp_link, hput, hcode, hget, Outcome.isError]
        · rcases hfail with ⟨m, hm⟩ | hzero | ⟨m, hm⟩ | ⟨a, ha, hatom⟩
          · rw [hput] at hm
            cases hm
          · exact absurd hzero hcode
          · rw [hget] at hm
            cases hm
          · rw [hget] at ha
            injection ha with ha
            subst ha
            cases reply with
            | normal hd contents => simp [Expr.isAtom] at hatom
            | symbol name =>
                simp [try_evaluate, with_link, try_evaluate_body,
                      assert_main_thread, process_wstp_link, hput, hcode, hget,
                      Outcome.isError]
            | str val =>
                simp [try_evaluate, with_link, try_evaluate_body,
                      assert_main_thread, process_wstp_link, hput, hcode, hget,
                      Outcome.isError]
            | integer val =>
                simp [try_evaluate, with_link, try_evaluate_body,
                      assert_main_thread, process_wstp_link, hput, hcode, hget,
                      Outcome.isError]
  · intro hd c cs hput hcode hget
    simp [try_evaluate, with_link, try_evaluate_body, assert_main_thread,
          process_wstp_link, hput, hcode, hget]
  · intro hd hput hcode hget
    simp [try_evaluate, with_link, try_evaluate_body, assert_main_thread,
          process_wstp_link, hput, hcode, hget, Outcome.isPanicked]
  · intro r hr
    rcases hte : try_evaluate true link expr with ⟨o, sent⟩
    rw [hte] at hr
    dsimp only at hr
    subst hr
    simp [evaluate, hte]
  · intro m hm
    rcases hte : try_evaluate true link expr with ⟨o, sent⟩
    rw [hte] at hm
    dsimp only at hm
    subst hm
    simp [evaluate, hte, Outcome.isPanicked]

/-- Witness for the amended C4: an atomic reply gives an `Err` (not an
unwind); a wrong-head compound reply with one element gives `Ok` of that
element; a wrong-head empty compound reply unwinds; a successful round-trip
passes through `evaluate`; a process failure makes `evaluate` panic. -/
theorem try_evaluate_result_discipline_witness :
    Outcome.isError (try_evaluate true
        { putExprResult := .ok (), processReturnCode := 1, errorMessage := none,
          getExprResult := .ok (.symbol "System`Null") }
        (.integer 0)).1 = true ∧
    (try_evaluate true
        { putExprResult := .ok (), processReturnCode := 1, errorMessage := none,
          getExprResult := .ok (.normal (.symbol "Global`Bar") [.integer 3]) }
        (.integer 0)).1 = .ok (.integer 3) ∧
    Outcome.isPanicked (try_evaluate true
        { putExprResult := .ok (), processReturnCode := 1, errorMessage := none,
          getExprResult := .ok (.normal (.symbol "Global`Bar") []) }
        (.integer 0)).1 = true ∧
    (evaluate true
        { putExprResult := .ok (), processReturnCode := 1, errorMessage := none,
          getExprResult := .ok (.normal (.symbol "System`ReturnPacket") [.integer 7]) }
        (.integer 0)).1 = .ok (.integer 7) ∧
    Outcome.isPanicked (evaluate true
        { putExprResult := .ok (), processReturnCode := 0, errorMessage := none,
          getExprResult := .ok (.symbol "System`Null") }
        (.integer 0)).1 = true :=
  ⟨(try_evaluate_result_discipline _ _).1 (Or.inr (Or.inr (Or.inr ⟨_, rfl, rfl⟩))),
   (try_evaluate_result_discipline _ _).2.1 _ _ _ rfl (by decide) rfl,
   (try_evaluate_result_discipline _ _).2.2.1 _ rfl (by decide) rfl,
   (try_evaluate_result_discipline _ _).2.2.2.1 _ rfl,
   (try_evaluate_result_discipline _ _).2.2.2.2 _ rfl⟩

/-- C5: `try_evaluate` returns an `Err` carrying an error message whenever
the request write, the link-processing step, or the reply read fails; when
the link-processing step reports failure, the message is the link error
message, or the fixed fallback text when the link supplies none. -/
theorem try_evaluate_transport_errors (link : HostLink) (expr : Expr) :
    (∀ m, link.putExprResult = .error m →
        (try_evaluate true link expr).1 = .error m) ∧
    (link.putExprResult = .ok () → link.processReturnCode = 0 →
        ((∀ m, link.errorMessage = some m →
            (try_evaluate true link expr).1 = .error m) ∧
         (link.errorMessage = none →
            (try_evaluate true link expr).1 =
              .error "unknown error occurred on WSTP Link"))) ∧
    (∀ m, link.putExprResult = .ok () → link.processReturnCode ≠ 0 →
        link.getExprResult = .error m →
        (try_evaluate true link expr).1 = .error m) := by
  refine ⟨?_, ?_, ?_⟩
  · intro m hput
    simp [try_evaluate, with_link, try_evaluate_body, assert_main_thread, hput]
  · intro hput hcode
    constructor
    · intro m hmsg
      simp [try_evaluate, with_link, try_evaluate_body, assert_main_thread,
            process_wstp_link, hput, hcode, hmsg]
    · intro hmsg
      simp [try_evaluate, with_link, try_evaluate_body, assert_main_thread,
            process_wstp_link, hput, hcode, hmsg]
  · intro m hput hcode hget
    simp [try_evaluate, with_link, try_evaluate_body, assert_main_thread,
          process_wstp_link, hput, hcode, hget]

/-- Witness for C5 at concrete links: a failed request write, a failed
link-processing step with and without a link-supplied message, and a failed
reply read. -/
theorem try_evaluate_transport_errors_witness :
    (try_evaluate true
        { putExprResult := .error "WSTP write failed", processReturnCode := 1,
          errorMessage := none, getExprResult := .ok (.integer 0) }
        (.integer 0)).1 = .error "WSTP write failed" ∧
    (try_evaluate true
        { putExprResult := .ok (), processReturnCode := 0,
          errorMessage := some "WSTP error: connection lost",
          getExprResult := .ok (.integer 0) }
        (.integer 0)).1 = .error "WSTP error: connection lost" ∧
    (try_evaluate true
        { putExprResult := .ok (), processReturnCode := 0, errorMessage := none,
          getExprResult := .ok (.integer 0) }
        (.integer 0)).1 = .error "unknown error occurred on WSTP Link" ∧
    (try_evaluate true
        { putExprResult := .ok (), processReturnCode := 1, errorMessage := none,
          getExprResult := .error "WSTP read failed" }
        (.integer 0)).1 = .error "WSTP read failed" :=
  ⟨(try_evaluate_transport_errors _ _).1 _ rfl,
   ((try_evaluate_transport_errors _ _).2.1 rfl rfl).1 _ rfl,
   ((try_evaluate_transport_errors _ _).2.1 rfl rfl).2 rfl,
   (try_evaluate_transport_errors _ _).2.2 _ rfl (by decide) rfl⟩

/-- C6: in every state reachable by interleaved channel round-trips through
`with_link`, at most one thread is inside its round-trip (mutual exclusion:
no two round-trips overlap), the responses read so far are exactly a prefix
of the requests written (replies arrive in request order), and the lock is
held by the round-tripping thread from before its request is written until
after its reply is decoded. -/
theorem with_link_channel_serialization (n : Nat) (s : ChanState n)
    (h : Relation.ReflTransGen ChanStep (ChanState.init n) s) :
    (∀ t u : Fin n, (s.phase t).active = true → (s.phase u).active = true →
        t = u) ∧
    (∃ pending, s.requests = s.responses ++ pending) ∧
    (∀ t : Fin n, s.phase t = .locked ∨ s.phase t = .sent ∨
        s.phase t = .received → s.owner = some t) := by
  obtain ⟨hact, hreq⟩ := chanInv_reachable h
  refine ⟨?_, ⟨_, hreq⟩, ?_⟩
  · intro t u ht hu
    have h1 := hact t ht
    have h2 := hact u hu
    rw [h1] at h2
    exact Option.some.inj h2
  · intro t ht
    rcases ht with h' | h' | h' <;> exact hact t (by simp [h', Phase.active])

/-- Witness for C6 at the concrete reachable state where thread 0 of 2 has
acquired the lock and written its request but not yet read the reply. -/
theorem with_link_channel_serialization_witness :
    ∃ s : ChanState 2, Relation.ReflTransGen ChanStep (ChanState.init 2) s ∧
      ((∀ t u : Fin 2, (s.phase t).active = true → (s.phase u).active = true →
          t = u) ∧
       (∃ pending, s.requests = s.responses ++ pending) ∧
       (∀ t : Fin 2, s.phase t = .locked ∨ s.phase t = .sent ∨
          s.phase t = .received → s.owner = some t)) := by
  have hstep1 := ChanStep.acquire (ChanState.init 2) 0 rfl rfl
  have hstep2 := ChanStep.put
      { owner := some 0,
        phase := Function.update (ChanState.init 2).phase 0 Phase.locked,
        requests := (ChanState.init 2).requests,
        responses := (ChanState.init 2).responses }
      0 rfl (by simp)
  have hreach := Relation.ReflTransGen.tail
      (Relation.ReflTransGen.tail Relation.ReflTransGen.refl hstep1) hstep2
  exact ⟨_, hreach, with_link_channel_serialization 2 _ hreach⟩

/-- C7: both call paths that touch the shared link assert the dispatch
(main) thread first: off the main thread, `with_link` panics without running
its closure (for any closure — nothing is written to the link, as the empty
trace of `try_evaluate` shows) and `process_wstp_link` panics; on the main
thread the assertion branch is unreachable — `with_link` just runs its
closure and `process_wstp_link` never panics. -/
theorem channel_thread_affinity (link : HostLink) (expr : Expr) :
    (∀ f : HostLink → Outcome Unit × List Expr,
        with_link false link f =
          (.panicked "attempted to access the WSTP link from a thread other than the main thread",
           [])) ∧
    Outcome.isPanicked (process_wstp_link false link) = true ∧
    (try_evaluate false link expr).2 = [] ∧
    Outcome.isPanicked (try_evaluate false link expr).1 = true ∧
    (∀ f : HostLink → Outcome Unit × List Expr, with_link true link f = f link) ∧
    Outcome.isPanicked (process_wstp_link true link) = false := by
  refine ⟨?_, ?_, ?_, ?_, ?_, ?_⟩
  · intro f
    simp [with_link, assert_main_thread]
  · simp [process_wstp_link, assert_main_thread, Outcome.isPanicked]
  · simp [try_evaluate, with_link, assert_main_thread]
  · simp [try_evaluate, with_link, assert_main_thread, Outcome.isPanicked]
  · intro f
    simp [with_link, assert_main_thread]
  · by_cases hcode : link.processReturnCode = 0 <;>
      simp [process_wstp_link, assert_main_thread, hcode, Outcome.isPanicked]

/-- C8: when pattern decoding of the argument expression fails, the closure
generated by `gen_arg_mode_pattern` returns, in place of a normal result, the
Failure-tagged structured value `Failure["ArgumentShape", <|"Message" ->
msg|>]` carrying the decode error message, and the wrapped user function is
not invoked (the invocation trace is empty, and the result is the same for
every user function). -/
theorem pattern_mode_decode_failure {Args : Type}
    (from_expr : Expr → Except String Args) (function_name other : Args → Expr)
    (argument_expr : Expr) (err : String)
    (h : from_expr argument_expr = .error err) :
    gen_arg_mode_pattern_closure from_expr function_name argument_expr =
      argumentShapeFailure err ∧
    (gen_arg_mode_pattern_closure_traced from_expr function_name argument_expr).2
      = [] ∧
    (argumentShapeFailure err).isFailure = true ∧
    gen_arg_mode_pattern_closure from_expr function_name argument_expr =
      gen_arg_mode_pattern_closure from_expr other argument_expr := by
  simp [gen_arg_mode_pattern_closure, gen_arg_mode_pattern_closure_traced, h,
        argumentShapeFailure, Expr.isFailure]

/-- Witness for C8 with a concrete failing decoder. -/
theorem pattern_mode_decode_failure_witness :
    @gen_arg_mode_pattern_closure Unit
        (fun _ => .error "expected List of length 2") (fun _ => .integer 0)
        (.integer 5)
      = argumentShapeFailure "expected List of length 2" ∧
    (@gen_arg_mode_pattern_closure_traced Unit
        (fun _ => .error "expected List of length 2") (fun _ => .integer 0)
        (.integer 5)).2 = [] ∧
    (argumentShapeFailure "expected List of length 2").isFailure = true ∧
    @gen_arg_mode_pattern_closure Unit
        (fun _ => .error "expected List of length 2") (fun _ => .integer 0)
        (.integer 5)
      = @gen_arg_mode_pattern_closure Unit
          (fun _ => .error "expected List of length 2") (fun _ => .integer 1)
          (.integer 5) :=
  @pattern_mode_decode_failure Unit
    (fun _ => .error "expected List of length 2") (fun _ => .integer 0)
    (fun _ => .integer 1) (.integer 5) "expected List of length 2" rfl

/-- C9: each call to `aborted` performs a fresh read of the host interrupt
flag and returns whether that read gives 1 — the result of the t-th call
depends only on the flag value at the t-th call (no caching across calls),
so after the flag clears a subsequent call returns `false`. -/
theorem aborted_fresh_poll (flag : Nat → Int) (t : Nat) :
    (abortedAt flag t = true ↔ flag t = 1) ∧
    (flag t ≠ 1 → abortedAt flag t = false) ∧
    (∀ flag2 : Nat → Int, flag2 t = flag t →
        abortedAt flag2 t = abortedAt flag t) := by
  refine ⟨?_, ?_, ?_⟩
  · simp [abortedAt, aborted]
  · intro h
    simp [abortedAt, aborted, h]
  · intro flag2 h
    simp [abortedAt, aborted, h]

/-- Witness for C9: the flag is raised at call 0 and cleared at call 1; the
poll returns true at call 0 and false — not a stale true — at call 1. -/
theorem aborted_fresh_poll_witness :
    abortedAt (fun n => if n = 0 then 1 else 0) 0 = true ∧
    abortedAt (fun n => if n = 0 then 1 else 0) 1 = false :=
  ⟨(aborted_fresh_poll (fun n => if n = 0 then 1 else 0) 0).1.mpr rfl,
   (aborted_fresh_poll (fun n => if n = 0 then 1 else 0) 1).2.1 (by decide)⟩

/-- C10: when pattern decoding of the argument expression succeeds, the
closure generated by `gen_arg_mode_pattern` invokes the wrapped user function
exactly once, on the decoded field values in declared parameter order, and
returns its result expression unchanged as the reply. -/
theorem pattern_mode_decode_success {Args : Type}
    (from_expr : Expr → Except String Args) (function_name : Args → Expr)
    (argument_expr : Expr) (args : Args)
    (h : from_expr argument_expr = .ok args) :
    gen_arg_mode_pattern_closure from_expr function_name argument_expr =
      function_name args ∧
    gen_arg_mode_pattern_closure_traced from_expr function_name argument_expr =
      (function_name args, [args]) := by
  simp [gen_arg_mode_pattern_closure, gen_arg_mode_pattern_closure_traced, h]

/-- Witness for C10 with a concrete two-field decoder applied to
`List[1, 2]`: the user function receives the pair (1, 2) once and its result
is returned unchanged. -/
theorem pattern_mode_decode_success_witness :
    @gen_arg_mode_pattern_closure (Int × Int)
        (fun e => match e with
          | .normal _ [.integer a, .integer b] => .ok (a, b)
          | _ => .error "argument pattern mismatch")
        (fun p => .integer (p.1 + p.2))
        (.normal (.symbol "System`List") [.integer 1, .integer 2])
      = .integer 3 ∧
    @gen_arg_mode_pattern_closure_traced (Int × Int)
        (fun e => match e with
          | .normal _ [.integer a, .integer b] => .ok (a, b)
          | _ => .error "argument pattern mismatch")
        (fun p => .integer (p.1 + p.2))
        (.normal (.symbol "System`List") [.integer 1, .integer 2])
      = (.integer 3, [((1 : Int), (2 : Int))]) :=
  @pattern_mode_decode_success (Int × Int)
    (fun e => match e with
      | .normal _ [.integer a, .integer b] => .ok (a, b)
      | _ => .error "argument pattern mismatch")
    (fun p => .integer (p.1 + p.2))
    (.normal (.symbol "System`List") [.integer 1, .integer 2])
    ((1 : Int), (2 : Int)) rfl

end WolframLibraryLink
